import Mathlib

/-!
Verification of the snapshot-fixture generator `scripts/generate_snapshots.py`.

The script is embedded shallowly: Python values that can flow through the
generator are modelled by the inductive type `PyVal`; pandas DataFrames,
which are only ever handed to the external rendering oracle or destructured
by `dataframe_repr`, are modelled by the structure `DataFrame`; the oracle
`tabulate` is an opaque function parameter.  Machine floats do not occur in
the generator (all numeric literals in the script are integers), so numbers
are modelled by `Int`.
-/

set_option maxHeartbeats 1000000

namespace GenerateSnapshots

/-- A JSON-compatible-or-native Python value as it occurs in the generator.

* `npScalar n` models a numpy integer scalar: a value with an `item()`
  method unwrapping to a native `int`.
* `ndarray tl` models a numpy array by the result `tl` of its `tolist()`
  conversion (the only observation the script makes of an array outside
  the oracle call).  The script only builds one-dimensional option arrays
  and the literal arrays of the numpy cases.
* `obj s` models an arbitrary Python object whose `str()` form is `s`
  (e.g. the namedtuple and dataclass instances used as raw case data). -/
inductive PyVal where
  | none
  | bool (b : Bool)
  | int (n : Int)
  | str (s : String)
  | npScalar (n : Int)
  | list (xs : List PyVal)
  | tuple (xs : List PyVal)
  | dict (es : List (String × PyVal))
  | ndarray (tl : PyVal)
  | obj (s : String)

/-- A pandas DataFrame, recorded through the observations `dataframe_repr`
makes of it: `df.columns.tolist()`, `df.to_numpy().tolist()`,
`df.index.tolist()` (tuples for a MultiIndex) and `df.index.names`. -/
structure DataFrame where
  columns : List PyVal
  rows : List (List PyVal)
  index : List PyVal
  indexNames : List (Option String)

/-- Raw case data as handed to the oracle: either a plain Python value or a
pandas DataFrame. -/
inductive RawData where
  | val (v : PyVal)
  | frame (df : DataFrame)

/-- The exceptions the generation loop can raise.

* `missingData name` models `ValueError(f"case ... is missing python data")`
  raised at line 371 of the script.
* `attributeError` models the `AttributeError` raised by evaluating
  `np.ndarray` in `to_json_kwargs` when `np` is `None` (numpy absent). -/
inductive GenError where
  | missingData (name : String)
  | attributeError
  deriving DecidableEq

/-- One entry of the `CASES` dictionary.  Every case in the script has a
`kwargs` key; `python_data`, `data` and `data_repr` are optional. -/
structure Case where
  python_data : Option RawData := Option.none
  data : Option PyVal := Option.none
  data_repr : Option PyVal := Option.none
  kwargs : List (String × PyVal)

/-- One generated snapshot: the value stored in `snapshots[name]`. -/
structure Snapshot where
  data : PyVal
  kwargs : List (String × PyVal)
  output : String

/-- The single-quote character, used by Python `repr` of strings. -/
def squote : Char := Char.ofNat 39

/-- `repr` of a Python string (quote-escaping inside the string does not
occur for any value reaching this function in the script). -/
def pyStrRepr (s : String) : String :=
  String.singleton squote ++ s ++ String.singleton squote

mutual

/-- Python `repr()` for the value shapes that can reach the `str(value)`
fallback of `to_json_value` or the `str(tuple(value))` call of
`dataframe_repr`.  `ndarray` never reaches these calls in the script
(arrays are intercepted by the `hasattr(value, "item")` branch). -/
def pyRepr : PyVal → String
  | .none => "None"
  | .bool true => "True"
  | .bool false => "False"
  | .int n => toString n
  | .str s => pyStrRepr s
  | .npScalar n => toString n
  | .list xs => "[" ++ pyReprSep xs ++ "]"
  | .tuple xs =>
      if xs.length = 1 then "(" ++ pyReprSep xs ++ ",)"
      else "(" ++ pyReprSep xs ++ ")"
  | .dict es => "\x7b" ++ pyReprEntries es ++ "\x7d"
  | .ndarray tl => pyRepr tl
  | .obj s => s

/-- Comma-separated `repr`s of the elements of a sequence. -/
def pyReprSep : List PyVal → String
  | [] => ""
  | [x] => pyRepr x
  | x :: xs => pyRepr x ++ ", " ++ pyReprSep xs

/-- Comma-separated `repr`s of the entries of a dict. -/
def pyReprEntries : List (String × PyVal) → String
  | [] => ""
  | [(k, v)] => pyStrRepr k ++ ": " ++ pyRepr v
  | (k, v) :: es => pyStrRepr k ++ ": " ++ pyRepr v ++ ", " ++ pyReprEntries es

end

/-- Python `str()` of a value: like `repr` except that a generic object
reports its stored string form. -/
def pyStr : PyVal → String
  | .obj s => s
  | v => pyRepr v

/-- `value.item()` of a numpy array modelled by its `tolist` form: peels the
nesting of a size-one array down to the scalar.  A multi-element array
raises `ValueError` in Python; no call site of `to_json_value` in the
script can pass an array, so that branch is never exercised. -/
def arrItem : PyVal → PyVal
  | .list [x] => arrItem x
  | v => v

mutual

/-- `to_json_value` (script lines 194-201), branch for branch:
primitives and `None` pass through; a value with an `item()` method is
unwrapped (`npScalar`, and `ndarray` which also has `item()`); lists and
tuples recurse; everything else falls through to `str(value)`. -/
def to_json_value : PyVal → PyVal
  | .str s => .str s
  | .int n => .int n
  | .bool b => .bool b
  | .none => .none
  | .npScalar n => .int n
  | .ndarray tl => arrItem tl
  | .list xs => .list (to_json_value_list xs)
  | .tuple xs => .list (to_json_value_list xs)
  | .dict es => .str (pyStr (.dict es))
  | .obj s => .str (pyStr (.obj s))

/-- Elementwise `to_json_value` over a list comprehension. -/
def to_json_value_list : List PyVal → List PyVal
  | [] => []
  | x :: xs => to_json_value x :: to_json_value_list xs

end

/-- One iteration of the loop in `to_json_kwargs` (script lines 21-27):
a tuple value becomes the list of its elements; otherwise the
`isinstance(value, np.ndarray)` test is evaluated, which raises
`AttributeError` when numpy is absent (`np` is `None`), converts an array
by `tolist()`, and passes any other value through unchanged. -/
def kwargEntry (npPresent : Bool) (k : String) (v : PyVal) :
    Except GenError (String × PyVal) :=
  match v with
  | .tuple xs => .ok (k, .list xs)
  | v =>
      if npPresent then
        match v with
        | .ndarray tl => .ok (k, tl)
        | v => .ok (k, v)
      else .error .attributeError

/-- `to_json_kwargs` (script lines 19-28): the loop over `kwargs.items()`
in entry order, aborted by the first exception. -/
def to_json_kwargs (npPresent : Bool) :
    List (String × PyVal) → Except GenError (List (String × PyVal))
  | [] => .ok []
  | kv :: rest =>
      match kwargEntry npPresent kv.1 kv.2 with
      | .error e => .error e
      | .ok e =>
          match to_json_kwargs npPresent rest with
          | .error e => .error e
          | .ok out => .ok (e :: out)

/-- Insertion of a key/value pair into a Python `dict`, viewed as an
insertion-ordered association list: assignment to an existing key replaces
its value in place (the key keeps its original position in iteration
order), assignment to a new key appends it at the end.  This is the
semantics of `CASES["name"] = ...` and, applied entry by entry, of
`CASES.update(EXTRA_CASES)`. -/
def dictInsert {V : Type} (d : List (String × V)) (k : String) (v : V) :
    List (String × V) :=
  if d.any (fun p => p.1 = k) then
    d.map (fun p => if p.1 = k then (k, v) else p)
  else d ++ [(k, v)]

/-- Folding a whole registration sequence into a dict, starting empty: the
dict literal at lines 31-153 followed by the item assignments and the
final `update` all insert entries in textual order. -/
def registerAll {V : Type} (regs : List (String × V)) : List (String × V) :=
  regs.foldl (fun d kv => dictInsert d kv.1 kv.2) []

/-- One entry of the `index` list built by `dataframe_repr`: a tuple label
(from a MultiIndex) becomes `str(tuple(value))`, anything else goes
through `to_json_value`. -/
def indexEntryRepr (v : PyVal) : PyVal :=
  match v with
  | .tuple xs => .str (pyRepr (.tuple xs))
  | v => to_json_value v

/-- The entry list of the dict returned by `dataframe_repr`
(script lines 206-234): discriminator, columns and data always; `index`
when `include_index`; `index_label` when the index has exactly one
non-`None` level name. -/
def dataframe_repr_entries (df : DataFrame) (include_index : Bool) :
    List (String × PyVal) :=
  let data := df.rows.map fun row => PyVal.list (to_json_value_list row)
  let columns := to_json_value_list df.columns
  let index : Option (List PyVal) :=
    if include_index then some (df.index.map indexEntryRepr) else Option.none
  let index_label : Option String :=
    if include_index then
      match df.indexNames.filterMap id with
      | [n] => some n
      | _ => Option.none
    else Option.none
  [("__tabulate_dataframe__", PyVal.bool true),
   ("columns", PyVal.list columns),
   ("data", PyVal.list data)]
  ++ (match index with
      | some ix => [("index", PyVal.list ix)]
      | Option.none => [])
  ++ (match index_label with
      | some n => [("index_label", PyVal.str n)]
      | Option.none => [])

/-- `dataframe_repr` itself, returning the dict. -/
def dataframe_repr (df : DataFrame) (include_index : Bool := true) : PyVal :=
  .dict (dataframe_repr_entries df include_index)

/-! ### The case catalog

Transcription of the `CASES` dict literal (lines 31-153), the item
assignments (lines 165-191), the conditional pandas (204-260) and numpy
(262-283) batches, and `EXTRA_CASES` (285-362).  The row grid
`[["Name", "Score"], ["Alice", 10], ["Bob", 1000]]` recurs in many cases
and is shared as `nameScoreRows`; `hfmt f` abbreviates the recurring
kwargs `{"headers": "firstrow", "tablefmt": f}`. -/

def nameScoreRows : PyVal :=
  .list [.list [.str "Name", .str "Score"],
         .list [.str "Alice", .int 10],
         .list [.str "Bob", .int 1000]]

def hfmt (fmt : String) : List (String × PyVal) :=
  [("headers", .str "firstrow"), ("tablefmt", .str fmt)]

def case_plain_simple : Case :=
  { data := some (.list [.list [.str "Sun", .str "696000", .str "1989100000"],
                         .list [.str "Earth", .str "6371", .str "5973.6"],
                         .list [.str "Moon", .str "1737", .str "73.5"],
                         .list [.str "Mars", .str "3390", .str "641.85"]]),
    kwargs := [("tablefmt", .str "plain")] }

def case_simple_with_headers : Case :=
  { data := some nameScoreRows, kwargs := hfmt "simple" }

def case_pipe_alignment : Case :=
  { data := some nameScoreRows,
    kwargs := [("headers", .str "firstrow"), ("tablefmt", .str "pipe"),
               ("colalign", .tuple [.str "left", .str "right"])] }

def mercuryVenusRows : PyVal :=
  .list [.list [.str "Name", .str "Description"],
         .list [.str "Mercury", .str "nearest\nplanet"],
         .list [.str "Venus", .str "second\nplanet"]]

def case_grid_rowalign : Case :=
  { data := some mercuryVenusRows,
    kwargs := hfmt "grid" ++ [("rowalign", .str "bottom")] }

def case_github_multiline : Case :=
  { data := some (.list [.list [.str "Name", .str "Quote"],
                         .list [.str "Alice", .str "Hello\nWorld"],
                         .list [.str "Bob", .str "Hi"]]),
    kwargs := hfmt "github" }

def case_orgtbl_numeric : Case :=
  { data := some nameScoreRows, kwargs := hfmt "orgtbl" }

def case_psql_numbers : Case :=
  { data := some (.list [.list [.str "planet", .str "radius"],
                         .list [.str "Mercury", .int 2440],
                         .list [.str "Venus", .int 6052]]),
    kwargs := hfmt "psql" }

def case_html_simple : Case :=
  { data := some (.list [.list [.str "Name", .str "Score"],
                         .list [.str "Alice", .int 1],
                         .list [.str "Bob", .int 2]]),
    kwargs := hfmt "html" }

def case_unsafehtml_simple : Case :=
  { data := some (.list [.list [.str "Name", .str "Score"],
                         .list [.str "<b>Alice</b>", .int 10],
                         .list [.str "<i>Bob</i>", .int 1000]]),
    kwargs := hfmt "unsafehtml" }

def planetRadiusRows : PyVal :=
  .list [.list [.str "Planet", .str "Radius"],
         .list [.str "Mercury", .int 2440],
         .list [.str "Venus", .int 6052]]

def case_latex_table : Case :=
  { data := some planetRadiusRows, kwargs := hfmt "latex" }

def case_latex_booktabs : Case :=
  { data := some planetRadiusRows, kwargs := hfmt "latex_booktabs" }

def case_grid_maxcolwidth : Case :=
  { data := some (.list [.list [.str "Name", .str "Description"],
                         .list [.str "Mercury", .str "Nearest planet to the Sun"],
                         .list [.str "Venus", .str "Has a thick atmosphere"]]),
    kwargs := hfmt "grid" ++ [("maxcolwidths", .list [.none, .int 10])] }

def regionValueRows : PyVal :=
  .list [.list [.str "Region", .str "Value"],
         .list [.str "EU", .str "42992e1"],
         .list [.str "US", .str "1000"]]

def case_grid_disable_numparse : Case :=
  { data := some regionValueRows,
    kwargs := hfmt "grid" ++ [("disable_numparse", .list [.int 1])] }

def case_pipe_rowalign_mixed : Case :=
  { data := some mercuryVenusRows,
    kwargs := hfmt "pipe" ++ [("rowalign", .list [.str "top", .str "bottom"])] }

def case_pipe_disable_numparse : Case :=
  { data := some regionValueRows,
    kwargs := hfmt "pipe" ++ [("disable_numparse", .list [.int 1])] }

def case_plain_showindex : Case :=
  { data := some (.list [.list [.str "Sun", .str "696000"],
                         .list [.str "Earth", .str "6371"]]),
    kwargs := hfmt "plain" ++ [("showindex", .str "always")] }

def case_plain_colglobal_right : Case :=
  { data := some (.list [.list [.str "Alice", .int 10],
                         .list [.str "Bob", .int 1000]]),
    kwargs := [("tablefmt", .str "plain"),
               ("colalign", .tuple [.str "right", .str "right"])] }

def case_ansi_plain : Case :=
  { data := some (.list [.list [.str "Name", .str "Value"],
                         .list [.str "\u001b[31mRed\u001b[0m", .int 10],
                         .list [.str "Plain", .int 5]]),
    kwargs := hfmt "plain" }

def case_wide_grid : Case :=
  { data := some (.list [.list [.str "Name", .str "Note"],
                         .list [.str "寿司", .str "おいしい"],
                         .list [.str "カレー", .str "辛い"]]),
    kwargs := hfmt "grid" }

def case_plain_preserve_whitespace : Case :=
  { data := some (.list [.list [.str "Name", .str "Value"],
                         .list [.str "  Alice", .str " 10"],
                         .list [.str "Bob  ", .str "5"]]),
    kwargs := hfmt "plain" }

def case_mediawiki_basic : Case :=
  { data := some nameScoreRows, kwargs := hfmt "mediawiki" }

def case_textile_basic : Case :=
  { data := some nameScoreRows, kwargs := hfmt "textile" }

/-- `Point = namedtuple("Point", "x y")` instances are opaque raw data for
the oracle; their `data_repr` is given explicitly in the script. -/
def case_namedtuple_keys_plain : Case :=
  { python_data := some (.val (.list
      [.obj ("Point(x=1, y=2)"), .obj ("Point(x=3, y=4)")])),
    data_repr := some (.list [.dict [("x", .int 1), ("y", .int 2)],
                              .dict [("x", .int 3), ("y", .int 4)]]),
    kwargs := [("headers", .str "keys"), ("tablefmt", .str "plain")] }

/-- `Person` dataclass instances, likewise opaque raw data. -/
def case_dataclass_keys_plain : Case :=
  { python_data := some (.val (.list
      [.obj ("Person(name=" ++ pyStrRepr "Alice" ++ ", age=30)"),
       .obj ("Person(name=" ++ pyStrRepr "Bob" ++ ", age=25)")])),
    data_repr := some (.list [.dict [("name", .str "Alice"), ("age", .int 30)],
                              .dict [("name", .str "Bob"), ("age", .int 25)]]),
    kwargs := [("headers", .str "keys"), ("tablefmt", .str "plain")] }

/-- The mismatched-length columnar mapping of lines 178-191. -/
def mismatchCols : List (String × PyVal) :=
  [("name", .list [.str "Alice", .str "Bob", .str "Cara"]),
   ("age", .list [.int 30, .int 25]),
   ("city", .list [.str "NYC", .str "Paris", .str "Berlin"])]

def case_dict_iterables_mismatch_plain : Case :=
  { python_data := some (.val (.dict mismatchCols)),
    data_repr := some (.list [.dict mismatchCols]),
    kwargs := [("headers", .str "keys"), ("tablefmt", .str "plain")] }

/-- The MultiIndex DataFrame built at lines 236-245:
`MultiIndex.from_product([["foo", "bar"], ["one", "two"]],
names=("first", "second"))` over columns `A = [1,2,3,4]`, `B = [5,6,7,8]`. -/
def multi_df : DataFrame :=
  { columns := [.str "A", .str "B"],
    rows := [[.int 1, .int 5], [.int 2, .int 6],
             [.int 3, .int 7], [.int 4, .int 8]],
    index := [.tuple [.str "foo", .str "one"], .tuple [.str "foo", .str "two"],
              .tuple [.str "bar", .str "one"], .tuple [.str "bar", .str "two"]],
    indexNames := [some "first", some "second"] }

def case_dataframe_multiindex_grid : Case :=
  { python_data := some (.frame multi_df),
    data_repr := some (.list [dataframe_repr multi_df true]),
    kwargs := [("headers", .str "keys"), ("tablefmt", .str "grid")] }

/-- The singly indexed DataFrame built at lines 252-255, whose index
`["row 1", "row 2"]` carries the single level name `"id"`. -/
def simple_df : DataFrame :=
  { columns := [.str "name", .str "score"],
    rows := [[.str "Alice", .int 10], [.str "Bob", .int 20]],
    index := [.str "row 1", .str "row 2"],
    indexNames := [some "id"] }

def case_dataframe_index_label_plain : Case :=
  { python_data := some (.frame simple_df),
    data_repr := some (.list [dataframe_repr simple_df true]),
    kwargs := [("headers", .str "keys"), ("tablefmt", .str "plain")] }

/-- `np.array([[1, 2], [3, 4]])`, recorded by its `tolist()` form. -/
def arr2x2 : PyVal :=
  .list [.list [.int 1, .int 2], .list [.int 3, .int 4]]

def case_numpy_array_plain : Case :=
  { python_data := some (.val (.ndarray arr2x2)),
    data_repr := some arr2x2,
    kwargs := [("tablefmt", .str "plain")] }

/-- `rec_array.tolist()` of the structured array at lines 270-272: a list
of per-row tuples. -/
def recRows : PyVal :=
  .list [.tuple [.int 1, .str "Alice"], .tuple [.int 2, .str "Bob"]]

def case_numpy_recarray_keys_plain : Case :=
  { python_data := some (.val (.ndarray recRows)),
    data_repr := some (.list [.dict
      [("__tabulate_numpy_recarray__", .bool true),
       ("dtype", .list [.tuple [.str "id", .str "i4"],
                        .tuple [.str "name", .str "U10"]]),
       ("rows", recRows)]]),
    kwargs := [("headers", .str "keys"), ("tablefmt", .str "plain")] }

def case_latex_raw_basic : Case :=
  { data := some nameScoreRows, kwargs := hfmt "latex_raw" }

def case_latex_raw_colalign : Case :=
  { data := some (.list [.list [.str "Name", .str "Value"],
                         .list [.str "Alice", .str "42992e1"],
                         .list [.str "Bob", .str "1000"]]),
    kwargs := hfmt "latex_raw" ++
              [("colalign", .tuple [.str "right", .str "left"])] }

def case_latex_longtable_basic : Case :=
  { data := some nameScoreRows, kwargs := hfmt "latex_longtable" }

def case_pretty_basic : Case :=
  { data := some nameScoreRows, kwargs := hfmt "pretty" }

def case_presto_basic : Case :=
  { data := some nameScoreRows, kwargs := hfmt "presto" }

def case_colon_grid_alignment : Case :=
  { data := some nameScoreRows,
    kwargs := hfmt "colon_grid" ++
              [("colalign", .tuple [.str "left", .str "right"])] }

def case_simple_outline_basic : Case :=
  { data := some nameScoreRows, kwargs := hfmt "simple_outline" }

def case_rounded_outline_basic : Case :=
  { data := some nameScoreRows, kwargs := hfmt "rounded_outline" }

def case_heavy_outline_basic : Case :=
  { data := some nameScoreRows, kwargs := hfmt "heavy_outline" }

def case_mixed_outline_basic : Case :=
  { data := some nameScoreRows, kwargs := hfmt "mixed_outline" }

def case_double_outline_basic : Case :=
  { data := some nameScoreRows, kwargs := hfmt "double_outline" }

def case_fancy_outline_basic : Case :=
  { data := some nameScoreRows, kwargs := hfmt "fancy_outline" }

def case_tsv_basic : Case :=
  { data := some nameScoreRows, kwargs := hfmt "tsv" }

def case_moinmoin_basic : Case :=
  { data := some nameScoreRows, kwargs := hfmt "moinmoin" }

def case_youtrack_basic : Case :=
  { data := some nameScoreRows, kwargs := hfmt "youtrack" }

def case_disable_numparse_mixed : Case :=
  { data := some (.list [.list [.str "Value"],
                         .list [.str "42992e1"],
                         .list [.str "100"]]),
    kwargs := hfmt "plain" ++ [("disable_numparse", .list [.int 0])] }

def case_maxheadercolwidths_scalar : Case :=
  { data := some (.list [.list [.str "VeryLongHeader", .str "Short"],
                         .list [.str "1", .str "2"]]),
    kwargs := hfmt "grid" ++ [("maxheadercolwidths", .int 6)] }

/-- The dict literal `CASES = { ... }` at lines 31-153, in textual order. -/
def baseRegs : List (String × Case) :=
  [("plain_simple", case_plain_simple),
   ("simple_with_headers", case_simple_with_headers),
   ("pipe_alignment", case_pipe_alignment),
   ("grid_rowalign", case_grid_rowalign),
   ("github_multiline", case_github_multiline),
   ("orgtbl_numeric", case_orgtbl_numeric),
   ("psql_numbers", case_psql_numbers),
   ("html_simple", case_html_simple),
   ("unsafehtml_simple", case_unsafehtml_simple),
   ("latex_table", case_latex_table),
   ("latex_booktabs", case_latex_booktabs),
   ("grid_maxcolwidth", case_grid_maxcolwidth),
   ("grid_disable_numparse", case_grid_disable_numparse),
   ("pipe_rowalign_mixed", case_pipe_rowalign_mixed),
   ("pipe_disable_numparse", case_pipe_disable_numparse),
   ("plain_showindex", case_plain_showindex),
   ("plain_colglobal_right", case_plain_colglobal_right),
   ("ansi_plain", case_ansi_plain),
   ("wide_grid", case_wide_grid),
   ("plain_preserve_whitespace", case_plain_preserve_whitespace),
   ("mediawiki_basic", case_mediawiki_basic),
   ("textile_basic", case_textile_basic)]

/-- The three item assignments at lines 165-191. -/
def itemRegs : List (String × Case) :=
  [("namedtuple_keys_plain", case_namedtuple_keys_plain),
   ("dataclass_keys_plain", case_dataclass_keys_plain),
   ("dict_iterables_mismatch_plain", case_dict_iterables_mismatch_plain)]

/-- The batch registered inside `if pd is not None:` (lines 204-260). -/
def pandasRegs : List (String × Case) :=
  [("dataframe_multiindex_grid", case_dataframe_multiindex_grid),
   ("dataframe_index_label_plain", case_dataframe_index_label_plain)]

/-- The batch registered inside `if np is not None:` (lines 262-283). -/
def numpyRegs : List (String × Case) :=
  [("numpy_array_plain", case_numpy_array_plain),
   ("numpy_recarray_keys_plain", case_numpy_recarray_keys_plain)]

/-- `EXTRA_CASES` (lines 285-362), folded in by `CASES.update`. -/
def extraRegs : List (String × Case) :=
  [("latex_raw_basic", case_latex_raw_basic),
   ("latex_raw_colalign", case_latex_raw_colalign),
   ("latex_longtable_basic", case_latex_longtable_basic),
   ("pretty_basic", case_pretty_basic),
   ("presto_basic", case_presto_basic),
   ("colon_grid_alignment", case_colon_grid_alignment),
   ("simple_outline_basic", case_simple_outline_basic),
   ("rounded_outline_basic", case_rounded_outline_basic),
   ("heavy_outline_basic", case_heavy_outline_basic),
   ("mixed_outline_basic", case_mixed_outline_basic),
   ("double_outline_basic", case_double_outline_basic),
   ("fancy_outline_basic", case_fancy_outline_basic),
   ("tsv_basic", case_tsv_basic),
   ("moinmoin_basic", case_moinmoin_basic),
   ("youtrack_basic", case_youtrack_basic),
   ("disable_numparse_mixed", case_disable_numparse_mixed),
   ("maxheadercolwidths_scalar", case_maxheadercolwidths_scalar)]

/-- The complete registration sequence as executed by the script, as a
function of which optional libraries imported successfully. -/
def regs (npPresent pdPresent : Bool) : List (String × Case) :=
  baseRegs ++ itemRegs ++
  (if pdPresent then pandasRegs else []) ++
  (if npPresent then numpyRegs else []) ++
  extraRegs

/-- The final `CASES` dict, after all registrations. -/
def CASES (npPresent pdPresent : Bool) : List (String × Case) :=
  registerAll (regs npPresent pdPresent)

/-! ### Assembly and the fixture writer -/

/-- The external rendering oracle `tabulate(python_data, **kwargs)`,
treated as an opaque deterministic function. -/
def Oracle : Type := RawData → List (String × PyVal) → String

/-- The body of the generation loop (script lines 368-378) for a single
case: resolve `case.get("python_data", case.get("data"))`, raise
`ValueError` when it is `None`, call the oracle on the raw data, and build
the snapshot with `data_repr`-or-`data` and the canonicalized kwargs. -/
def processCase (oracle : Oracle) (npPresent : Bool) (name : String)
    (c : Case) : Except GenError Snapshot :=
  match c.python_data <|> (c.data.map RawData.val) with
  | Option.none => Except.error (.missingData name)
  | some pdata =>
      let output := oracle pdata c.kwargs
      match to_json_kwargs npPresent c.kwargs with
      | .error e => .error e
      | .ok kw =>
          .ok { data := ((c.data_repr <|> c.data).getD .none),
                kwargs := kw,
                output := output }

/-- The generation loop over a list of catalog entries, in iteration
order; the first exception aborts the loop. -/
def assembleCases (oracle : Oracle) (npPresent : Bool) :
    List (String × Case) → Except GenError (List (String × Snapshot))
  | [] => .ok []
  | nc :: rest =>
      match processCase oracle npPresent nc.1 nc.2 with
      | .error e => .error e
      | .ok s =>
          match assembleCases oracle npPresent rest with
          | .error e => .error e
          | .ok out => .ok ((nc.1, s) :: out)

/-- The whole `snapshots` loop of the script: every case of `CASES` to a
named snapshot. -/
def buildSnapshots (oracle : Oracle) (npPresent pdPresent : Bool) :
    Except GenError (List (String × Snapshot)) :=
  assembleCases oracle npPresent (CASES npPresent pdPresent)

/-- Lowercase hexadecimal digit, as used by `json` for `\uXXXX` escapes. -/
def hexDigit (n : Nat) : Char :=
  if n < 10 then Char.ofNat (48 + n) else Char.ofNat (87 + n)

/-- The escaping `json.dump(..., ensure_ascii=False)` applies to one
character of a string: backslash, double quote and the control characters
below U+0020 are escaped (with the usual short forms); every other
character — in particular all non-ASCII characters — is emitted
literally. -/
def jsonEscapeChar (c : Char) : String :=
  if c = Char.ofNat 92 then "\\\\"
  else if c = Char.ofNat 34 then "\\\""
  else if c = Char.ofNat 10 then "\\n"
  else if c = Char.ofNat 9 then "\\t"
  else if c = Char.ofNat 13 then "\\r"
  else if c = Char.ofNat 8 then "\\b"
  else if c = Char.ofNat 12 then "\\f"
  else if c.toNat < 32 then
    "\\u00" ++ String.singleton (hexDigit (c.toNat / 16)) ++
    String.singleton (hexDigit (c.toNat % 16))
  else String.singleton c

/-- A JSON string literal under `ensure_ascii=False`. -/
def jsonString (s : String) : String :=
  "\"" ++ String.join (s.toList.map jsonEscapeChar) ++ "\""

/-- The two-space-per-level indentation of `json.dump(..., indent=2)`. -/
def indentStr (d : Nat) : String := String.mk (List.replicate (2 * d) ' ')

mutual

/-- `json.dump` with `indent=2, ensure_ascii=False` on one value at
nesting depth `d`.  Tuples are serialized as arrays (the `json` encoder
treats them like lists).  The constructors `npScalar`, `ndarray` and
`obj` are not JSON-serializable in Python (`json.dump` would raise
`TypeError`); they never occur in a generated store, and their branches
here are inert placeholders. -/
def jsonValue : PyVal → Nat → String
  | .none, _ => "null"
  | .bool true, _ => "true"
  | .bool false, _ => "false"
  | .int n, _ => toString n
  | .str s, _ => jsonString s
  | .npScalar n, _ => toString n
  | .list xs, d =>
      if xs.isEmpty then "[]"
      else "[\n" ++ String.intercalate ",\n" (jsonItems xs (d + 1)) ++
           "\n" ++ indentStr d ++ "]"
  | .tuple xs, d =>
      if xs.isEmpty then "[]"
      else "[\n" ++ String.intercalate ",\n" (jsonItems xs (d + 1)) ++
           "\n" ++ indentStr d ++ "]"
  | .dict es, d =>
      if es.isEmpty then "\x7b\x7d"
      else "\x7b\n" ++ String.intercalate ",\n" (jsonEntries es (d + 1)) ++
           "\n" ++ indentStr d ++ "\x7d"
  | .ndarray tl, d => jsonValue tl d
  | .obj s, _ => jsonString s

/-- The serialized items of an array, each on its own indented line. -/
def jsonItems : List PyVal → Nat → List String
  | [], _ => []
  | x :: xs, d => (indentStr d ++ jsonValue x d) :: jsonItems xs d

/-- The serialized entries of an object, in entry order, each on its own
indented line. -/
def jsonEntries : List (String × PyVal) → Nat → List String
  | [], _ => []
  | (k, v) :: es, d =>
      (indentStr d ++ jsonString k ++ ": " ++ jsonValue v d) :: jsonEntries es d

end

/-- One snapshot as the JSON value stored under its case name. -/
def snapshotVal (s : Snapshot) : PyVal :=
  .dict [("data", s.data), ("kwargs", .dict s.kwargs), ("output", .str s.output)]

/-- The full fixture file contents: the ordered store serialized as a
single top-level object. -/
def serializeStore (store : List (String × Snapshot)) : String :=
  jsonValue (.dict (store.map fun ns => (ns.1, snapshotVal ns.2))) 0

/-- The whole generation run (script lines 367-384), as a function of the
previous contents of `tests/fixtures/python_snapshots.json` (`none` when
the file does not exist).  Returns the final file contents, the list of
writes performed on the file, and whether the run succeeded.  The single
`open`/`json.dump` sits after the complete loop, so an exception anywhere
in the loop leaves the file untouched; `pathlib.Path(...).mkdir` only
creates the directory. -/
def generateRun (oracle : Oracle) (npPresent pdPresent : Bool)
    (file : Option String) : Option String × List String × Bool :=
  match buildSnapshots oracle npPresent pdPresent with
  | .error _ => (file, [], false)
  | .ok snaps =>
      let contents := serializeStore snaps
      (some contents, [contents], true)

/-! ### Spec-side helper notions

The definitions in this section are not translations of script code; they
spell out, in executable form, the notions the claims quantify over
(canonical-value shapes, first-occurrence key order, last-registration
values), to be compared with the behaviour of the definitions above. -/

mutual

/-- A value is canonical (JSON-safe) when it is built only from `null`,
booleans, numbers, strings, sequences and string-keyed mappings. -/
def isCanonical : PyVal → Bool
  | .none => true
  | .bool _ => true
  | .int _ => true
  | .str _ => true
  | .list xs => isCanonicalList xs
  | .dict es => isCanonicalEntries es
  | _ => false

/-- Canonicity of every element of a sequence. -/
def isCanonicalList : List PyVal → Bool
  | [] => true
  | x :: xs => isCanonical x && isCanonicalList xs

/-- Canonicity of every value of a mapping. -/
def isCanonicalEntries : List (String × PyVal) → Bool
  | [] => true
  | (_, v) :: es => isCanonical v && isCanonicalEntries es

end

/-- An array of arrays. -/
def isListOfLists : PyVal → Bool
  | .list xs => xs.all fun x => match x with | .list _ => true | _ => false
  | _ => false

/-- An array of mappings. -/
def isListOfDicts : PyVal → Bool
  | .list xs => xs.all fun x => match x with | .dict _ => true | _ => false
  | _ => false

/-- The value the loop stores in the snapshot `data` field:
`case.get("data_repr", case.get("data"))`. -/
def snapDataOf (c : Case) : PyVal := (c.data_repr <|> c.data).getD .none

/-- The per-value transformation the claim about options normalization
describes: a tuple becomes the ordered list of its elements, an array
becomes its `tolist` form, every other value passes through unchanged. -/
def kwargVal : PyVal → PyVal
  | .tuple xs => .list xs
  | .ndarray tl => tl
  | v => v

/-- The keys of a registration sequence in first-occurrence order, later
duplicates dropped. -/
def firstOccurKeys : List String → List String
  | [] => []
  | k :: ks => k :: (firstOccurKeys ks).filter (fun x => x ≠ k)

/-- The value the last registration of a name supplies, if the name was
registered at all. -/
def finalValue {V : Type} (k : String) : List (String × V) → Option V
  | [] => Option.none
  | r :: rest =>
      ((finalValue k rest).or (if r.1 = k then some r.2 else Option.none))

/-- A fixed concrete oracle, used to instantiate theorems about the loop
at closed inputs. -/
def oracle0 : Oracle := fun _ _ => ""

/-! ### Identity-aware model of the loop

The frame claim is about object identity: the loop must not mutate the
registered kwargs dicts, and `to_json_kwargs` must return a freshly
constructed dict (`result = {}` at line 20) rather than the registered
one.  To express identity in a shallow embedding the kwargs dicts are
placed on an explicit heap of numbered dict objects; `to_json_kwargs`
allocates its result dict.  Everything else is as in the plain model. -/

/-- A heap of dict objects: an address-keyed store plus the next fresh
address. -/
structure Heap where
  objs : List (Nat × List (String × PyVal))
  next : Nat

/-- Dereference an address. -/
def Heap.lookup (h : Heap) (a : Nat) : Option (List (String × PyVal)) :=
  List.lookup a h.objs

/-- Allocate a new dict object at a fresh address. -/
def Heap.alloc (h : Heap) (d : List (String × PyVal)) : Nat × Heap :=
  (h.next, ⟨h.objs ++ [(h.next, d)], h.next + 1⟩)

/-- Heap well-formedness: every allocated address is below `next`. -/
def Heap.WF (h : Heap) : Bool :=
  h.objs.all fun p => p.1 < h.next

/-- A catalog entry whose kwargs dict lives on the heap. -/
structure HCase where
  python_data : Option RawData := Option.none
  data : Option PyVal := Option.none
  data_repr : Option PyVal := Option.none
  kwargsAddr : Nat

/-- A snapshot whose kwargs dict lives on the heap. -/
structure HSnapshot where
  data : PyVal
  kwargsAddr : Nat
  output : String

/-- `to_json_kwargs` on the heap: read the registered dict, normalize it,
and store the result in a freshly allocated dict object. -/
def to_json_kwargsH (npPresent : Bool) (h : Heap) (a : Nat) :
    Except GenError (Nat × Heap) :=
  match to_json_kwargs npPresent ((h.lookup a).getD []) with
  | .error e => .error e
  | .ok kw => .ok (h.alloc kw)

/-- The loop body on the heap: identical to `processCase` except that the
kwargs dict is dereferenced for the oracle call and the canonical kwargs
are freshly allocated. -/
def processCaseH (oracle : Oracle) (npPresent : Bool) (h : Heap)
    (name : String) (c : HCase) : Except GenError (HSnapshot × Heap) :=
  match c.python_data <|> (c.data.map RawData.val) with
  | Option.none => Except.error (.missingData name)
  | some pdata =>
      let output := oracle pdata ((h.lookup c.kwargsAddr).getD [])
      match to_json_kwargsH npPresent h c.kwargsAddr with
      | .error e => .error e
      | .ok (a, h') =>
          .ok ({ data := ((c.data_repr <|> c.data).getD .none),
                 kwargsAddr := a,
                 output := output }, h')

/-- The generation loop on the heap. -/
def assembleCasesH (oracle : Oracle) (npPresent : Bool) (h : Heap) :
    List (String × HCase) → Except GenError (List (String × HSnapshot) × Heap)
  | [] => .ok ([], h)
  | nc :: rest =>
      match processCaseH oracle npPresent h nc.1 nc.2 with
      | .error e => .error e
      | .ok (s, h') =>
          match assembleCasesH oracle npPresent h' rest with
          | .error e => .error e
          | .ok (out, h'') => .ok ((nc.1, s) :: out, h'')

/-! ### Helper lemmas -/

theorem assembleCases_names (oracle : Oracle) (npP : Bool) :
    ∀ (cs : List (String × Case)) (out : List (String × Snapshot)),
      assembleCases oracle npP cs = .ok out →
      out.map Prod.fst = cs.map Prod.fst := by
  intro cs
  induction cs with
  | nil =>
      intro out h
      simp only [assembleCases, Except.ok.injEq] at h
      simp [← h]
  | cons nc rest ih =>
      intro out h
      simp only [assembleCases] at h
      cases hp : processCase oracle npP nc.1 nc.2 with
      | error e => rw [hp] at h; cases h
      | ok s =>
          rw [hp] at h
          cases hr : assembleCases oracle npP rest with
          | error e => rw [hr] at h; cases h
          | ok out' =>
              rw [hr] at h
              simp only [Except.ok.injEq] at h
              simp [← h, ih out' hr]

theorem kwargEntry_np (k : String) (v : PyVal) :
    kwargEntry true k v = .ok (k, kwargVal v) := by
  cases v <;> rfl

theorem kwargEntry_error (npP : Bool) (k : String) (v : PyVal) (e : GenError) :
    kwargEntry npP k v = .error e → e = .attributeError := by
  cases npP <;> cases v <;> intro h <;> first | (injection h with h; exact h.symm) | cases h

theorem to_json_kwargs_error (npP : Bool) :
    ∀ (kw : List (String × PyVal)) (e : GenError),
      to_json_kwargs npP kw = .error e → e = .attributeError := by
  intro kw
  induction kw with
  | nil => intro e h; cases h
  | cons kv rest ih =>
      intro e h
      simp only [to_json_kwargs] at h
      cases hk : kwargEntry npP kv.1 kv.2 with
      | error e' =>
          rw [hk] at h
          injection h with h'
          exact h' ▸ kwargEntry_error npP kv.1 kv.2 e' hk
      | ok en =>
          rw [hk] at h
          cases hr : to_json_kwargs npP rest with
          | error e' =>
              rw [hr] at h
              injection h with h'
              exact h' ▸ ih e' hr
          | ok out => rw [hr] at h; cases h

/-! ### Claim theorems -/

/-- C1: for every generation run, the fixture file is written exactly once
and only after every registered case has produced a snapshot; if any case
fails, the run aborts with the previously persisted file contents left
untouched and no write performed, and on success the file is replaced by
the serialization of the complete store, which carries one snapshot per
registered case, in registration order. -/
theorem fixture_written_once_after_complete_store :
    ∀ (oracle : Oracle) (npP pdP : Bool) (file : Option String),
      match buildSnapshots oracle npP pdP with
      | .error _ => generateRun oracle npP pdP file = (file, [], false)
      | .ok snaps =>
          generateRun oracle npP pdP file =
            (some (serializeStore snaps), [serializeStore snaps], true)
          ∧ snaps.map Prod.fst = (CASES npP pdP).map Prod.fst := by
  intro oracle npP pdP file
  cases h : buildSnapshots oracle npP pdP with
  | error e => simp [generateRun, h]
  | ok snaps =>
      exact ⟨by simp [generateRun, h], assembleCases_names oracle npP _ snaps h⟩

/-- C2 (code bug): when numpy is unavailable the generation run does not
complete over the remaining cases: the very first case already aborts with
the `AttributeError` raised by `isinstance(value, np.ndarray)` on
`np = None`, and the fixture file is not written.  (When only pandas is
unavailable the run does complete, producing one fixture entry per
remaining case, which is what the claim describes.) -/
theorem numpy_absent_aborts_run :
    ∀ (oracle : Oracle) (pdP : Bool),
      buildSnapshots oracle false pdP = .error .attributeError
      ∧ (∀ file, generateRun oracle false pdP file = (file, [], false))
      ∧ (∃ snaps, buildSnapshots oracle true false = .ok snaps ∧
          snaps.map Prod.fst = (CASES true false).map Prod.fst) := by
  intro oracle pdP
  have h1 : buildSnapshots oracle false pdP = .error .attributeError := by
    cases pdP <;> rfl
  exact ⟨h1, fun file => by simp [generateRun, h1],
         ⟨_, rfl, assembleCases_names oracle true _ _ rfl⟩⟩

/-- C3 counterexample: a value matching none of the supported shapes (a
generic Python object) does not raise; `to_json_value` converts it to its
`str()` form, a canonical string value. -/
theorem unsupported_value_counterexample :
    to_json_value (.obj "<object object at 0x7f>") = .str "<object object at 0x7f>"
    ∧ isCanonical (to_json_value (.obj "<object object at 0x7f>")) = true :=
  ⟨rfl, rfl⟩

/-- C3 amended: for every value with no canonicalization rule (a generic
object, or a mapping reaching the fallback), `to_json_value` returns the
canonical string `str(value)` instead of raising an error — the script
defines no `UnsupportedTypeError` and its normalizer is total. -/
theorem unsupported_value_stringified :
    ∀ (s : String) (es : List (String × PyVal)),
      to_json_value (.obj s) = .str (pyStr (.obj s))
      ∧ pyStr (.obj s) = s
      ∧ to_json_value (.dict es) = .str (pyStr (.dict es)) := by
  intro s es
  exact ⟨rfl, rfl, rfl⟩

/-- C4: with numpy present, options normalization is key-wise: each
tuple-valued entry becomes the ordered list of its elements, each
array-valued entry becomes its `tolist` sequence (a sequence of primitive
numbers for a one-dimensional numeric array), every other value passes
through unchanged, and the key sequence is preserved exactly; in
particular `colalign = ("left", "right")` becomes `["left", "right"]`. -/
theorem options_normalization_keywise :
    ∀ (kw : List (String × PyVal)),
      to_json_kwargs true kw = .ok (kw.map fun kv => (kv.1, kwargVal kv.2))
      ∧ (kw.map fun kv => (kv.1, kwargVal kv.2)).map Prod.fst = kw.map Prod.fst
      ∧ (∀ (xs : List PyVal), kwargVal (.tuple xs) = .list xs)
      ∧ (∀ (ns : List Int),
          kwargVal (.ndarray (.list (ns.map PyVal.int))) = .list (ns.map PyVal.int))
      ∧ (∀ (s : String), kwargVal (.str s) = .str s)
      ∧ (∀ (n : Int), kwargVal (.int n) = .int n)
      ∧ (∀ (xs : List PyVal), kwargVal (.list xs) = .list xs)
      ∧ to_json_kwargs true case_pipe_alignment.kwargs =
          .ok [("headers", .str "firstrow"), ("tablefmt", .str "pipe"),
               ("colalign", .list [.str "left", .str "right"])] := by
  have main : ∀ (kw : List (String × PyVal)),
      to_json_kwargs true kw = .ok (kw.map fun kv => (kv.1, kwargVal kv.2)) := by
    intro kw
    induction kw with
    | nil => rfl
    | cons kv rest ih => simp [to_json_kwargs, kwargEntry_np, ih]
  intro kw
  exact ⟨main kw, by simp, fun xs => rfl, fun ns => rfl, fun s => rfl,
         fun n => rfl, fun xs => rfl, rfl⟩

/-- C9 counterexample: a catalog entry that supplies only an explicit
canonical override (`data_repr`) and no raw data source is not assembled;
the loop raises the missing-data `ValueError` for it. -/
theorem override_only_case_counterexample :
    processCase oracle0 true "only_override"
      { data_repr := some (.list [.list [.int 1, .int 2]]),
        kwargs := [("tablefmt", .str "plain")] } =
      .error (.missingData "only_override")
    ∧ ({ data_repr := some (.list [.list [.int 1, .int 2]]),
         kwargs := [("tablefmt", .str "plain")] } : Case).data_repr.isSome = true :=
  ⟨rfl, rfl⟩

/-- C9 amended: the missing-data failure is raised for a catalog entry if
and only if the entry has neither a `python_data` raw source nor a `data`
raw source; an explicit canonical override (`data_repr`) alone does not
prevent it, because the oracle still needs raw data to render. -/
theorem missing_data_iff_no_raw_source :
    ∀ (oracle : Oracle) (npP : Bool) (name : String) (c : Case),
      processCase oracle npP name c = .error (.missingData name)
        ↔ (c.python_data = Option.none ∧ c.data = Option.none) := by
  intro oracle npP name c
  constructor
  · intro h
    rcases hp : c.python_data with _ | rd
    · rcases hd : c.data with _ | d
      · exact ⟨rfl, rfl⟩
      · exfalso
        unfold processCase at h
        rw [hp, hd] at h
        simp only [Option.orElse_none, Option.none_orElse, Option.map_some] at h
        cases hk : to_json_kwargs npP c.kwargs with
        | error e =>
            rw [hk] at h
            injection h with h'
            have := to_json_kwargs_error npP c.kwargs e hk
            rw [this] at h'
            cases h'
        | ok kws => rw [hk] at h; cases h
    · exfalso
      unfold processCase at h
      rw [hp] at h
      simp only [Option.some_orElse] at h
      cases hk : to_json_kwargs npP c.kwargs with
      | error e =>
          rw [hk] at h
          injection h with h'
          have := to_json_kwargs_error npP c.kwargs e hk
          rw [this] at h'
          cases h'
      | ok kws => rw [hk] at h; cases h
  · rintro ⟨hp, hd⟩
    unfold processCase
    rw [hp, hd]
    rfl

/-- C7 counterexample: the canonical form the fixture records for the
columnar-mapping case `dict_iterables_mismatch_plain` is a one-element
sequence containing the mapping, not the mapping itself. -/
theorem columnar_mapping_wrapped_counterexample :
    processCase oracle0 true "dict_iterables_mismatch_plain"
      case_dict_iterables_mismatch_plain =
      .ok { data := .list [.dict mismatchCols],
            kwargs := [("headers", .str "keys"), ("tablefmt", .str "plain")],
            output := "" }
    ∧ (PyVal.list [.dict mismatchCols]) ≠ .dict mismatchCols := by
  refine ⟨rfl, ?_⟩
  intro h
  cases h

/-- C7 amended: every case's `data` field is an array — of arrays or of
mappings; the tagged-struct mappings (record array, indexed table) and the
columnar mapping appear as the sole element of a one-element array, never
directly at top level.  The second conjunct shows the stored `data` field
is exactly `data_repr`-or-`data` for every successfully processed case. -/
theorem fixture_data_is_array_of_arrays_or_mappings :
    ((CASES true true).all fun nc =>
        isListOfLists (snapDataOf nc.2) || isListOfDicts (snapDataOf nc.2)) = true
    ∧ (∀ (oracle : Oracle) (npP : Bool) (name : String) (c : Case),
        match processCase oracle npP name c with
        | .ok s => s.data = snapDataOf c
        | .error _ => True) := by
  constructor
  · decide
  · intro oracle npP name c
    cases hraw : c.python_data <|> (c.data.map RawData.val) with
    | none => simp [processCase, hraw]
    | some pdata =>
        simp only [processCase, hraw]
        cases hk : to_json_kwargs npP c.kwargs with
        | error e => simp
        | ok kws => simp [snapDataOf]

/-! ### Registration semantics (C5) -/

theorem any_key_iff_mem {V : Type} (d : List (String × V)) (k : String) :
    d.any (fun p => p.1 = k) = true ↔ k ∈ d.map Prod.fst := by
  simp [List.any_eq_true, List.mem_map]

theorem lookup_cons_pairs {K V : Type} [BEq K] [LawfulBEq K] [DecidableEq K]
    (k : K) (p : K × V) (rest : List (K × V)) :
    List.lookup k (p :: rest) = if k = p.1 then some p.2 else List.lookup k rest := by
  rcases p with ⟨pk, pv⟩
  by_cases h : k = pk
  · subst h; simp [List.lookup]
  · have hb : (k == pk) = false := beq_eq_false_iff_ne.mpr h
    simp [List.lookup, hb, h]

theorem dictInsert_keys {V : Type} (d : List (String × V)) (k : String) (v : V) :
    (dictInsert d k v).map Prod.fst =
      if k ∈ d.map Prod.fst then d.map Prod.fst else d.map Prod.fst ++ [k] := by
  unfold dictInsert
  by_cases hmem : k ∈ d.map Prod.fst
  · rw [if_pos ((any_key_iff_mem d k).mpr hmem), if_pos hmem, List.map_map]
    refine List.map_congr_left (fun p _ => ?_)
    by_cases hp : p.1 = k
    · simp [hp]
    · simp [hp]
  · rw [if_neg (fun h => hmem ((any_key_iff_mem d k).mp h)), if_neg hmem]
    simp

theorem lookup_eq_none_of_not_mem_keys {K V : Type} [BEq K] [LawfulBEq K]
    [DecidableEq K] (d : List (K × V))
    (k : K) (h : k ∉ d.map Prod.fst) : List.lookup k d = Option.none := by
  induction d with
  | nil => rfl
  | cons p rest ih =>
      simp only [List.map_cons, List.mem_cons] at h
      push_neg at h
      rw [lookup_cons_pairs, if_neg h.1]
      exact ih h.2

theorem lookup_some_of_mem_keys {V : Type} (d : List (String × V)) (k : String)
    (h : k ∈ d.map Prod.fst) : ∃ w, List.lookup k d = some w := by
  induction d with
  | nil => cases h
  | cons p rest ih =>
      by_cases hp : k = p.1
      · exact ⟨p.2, by rw [lookup_cons_pairs, if_pos hp]⟩
      · have hrest : k ∈ rest.map Prod.fst := by
          simp only [List.map_cons, List.mem_cons] at h
          rcases h with h | h
          · exact absurd h hp
          · exact h
        rcases ih hrest with ⟨w, hw⟩
        exact ⟨w, by rw [lookup_cons_pairs, if_neg hp]; exact hw⟩

theorem lookup_append_pairs {K V : Type} [BEq K] [LawfulBEq K] [DecidableEq K]
    (l1 l2 : List (K × V)) (k : K) :
    List.lookup k (l1 ++ l2) = (List.lookup k l1).or (List.lookup k l2) := by
  induction l1 with
  | nil => simp [List.lookup]
  | cons p rest ih =>
      rw [List.cons_append, lookup_cons_pairs, lookup_cons_pairs]
      by_cases h : k = p.1
      · rw [if_pos h, if_pos h]; rfl
      · rw [if_neg h, if_neg h, ih]

theorem lookup_map_replace {V : Type} (d : List (String × V)) (kr kq : String)
    (v : V) :
    List.lookup kq (d.map fun p => if p.1 = kr then (kr, v) else p) =
      if kq = kr then (List.lookup kq d).map (fun _ => v)
      else List.lookup kq d := by
  induction d with
  | nil =>
      simp only [List.map_nil]
      by_cases h : kq = kr <;> simp [h, List.lookup]
  | cons p rest ih =>
      by_cases h1 : p.1 = kr <;> by_cases h2 : kq = kr <;>
        by_cases h3 : kq = p.1 <;>
          simp_all [List.map_cons, lookup_cons_pairs]

theorem dictInsert_lookup {V : Type} (d : List (String × V)) (kr : String)
    (v : V) (kq : String) :
    List.lookup kq (dictInsert d kr v) =
      if kq = kr then some v else List.lookup kq d := by
  unfold dictInsert
  by_cases hmem : kr ∈ d.map Prod.fst
  · rw [if_pos ((any_key_iff_mem d kr).mpr hmem), lookup_map_replace]
    by_cases h2 : kq = kr
    · subst h2
      rcases lookup_some_of_mem_keys d kq hmem with ⟨w, hw⟩
      simp [hw]
    · simp [h2]
  · rw [if_neg (fun h => hmem ((any_key_iff_mem d kr).mp h)), lookup_append_pairs]
    by_cases h2 : kq = kr
    · subst h2
      rw [lookup_eq_none_of_not_mem_keys d kq hmem, if_pos rfl,
          lookup_cons_pairs]
      rw [if_pos rfl]
      rfl
    · rw [if_neg h2]
      have hl : List.lookup kq [(kr, v)] = Option.none := by
        rw [lookup_cons_pairs, if_neg h2]
        rfl
      rw [hl]
      cases List.lookup kq d <;> rfl

theorem registerAll_concat {V : Type} (regs : List (String × V))
    (r : String × V) :
    registerAll (regs ++ [r]) = dictInsert (registerAll regs) r.1 r.2 := by
  unfold registerAll
  rw [List.foldl_append]
  rfl

theorem mem_firstOccurKeys (k : String) :
    ∀ (l : List String), k ∈ firstOccurKeys l ↔ k ∈ l := by
  intro l
  induction l with
  | nil => simp [firstOccurKeys]
  | cons x xs ih =>
      simp only [firstOccurKeys, List.mem_cons, List.mem_filter, ih]
      by_cases h : k = x
      · simp [h]
      · simp [h]

theorem firstOccurKeys_concat (l : List String) (k : String) :
    firstOccurKeys (l ++ [k]) =
      if k ∈ l then firstOccurKeys l else firstOccurKeys l ++ [k] := by
  induction l with
  | nil => simp [firstOccurKeys]
  | cons x xs ih =>
      simp only [List.cons_append, firstOccurKeys, List.append_eq]
      rw [ih]
      by_cases hx : k ∈ xs
      · rw [if_pos hx, if_pos (show k ∈ x :: xs from List.mem_cons_of_mem x hx)]
      · by_cases he : k = x
        · subst he
          rw [if_neg hx, if_pos (List.mem_cons_self k xs), List.filter_append]
          simp [firstOccurKeys]
        · rw [if_neg hx,
              if_neg (fun h : k ∈ x :: xs => (List.mem_cons.mp h).elim he hx),
              List.filter_append]
          simp [firstOccurKeys, he]

theorem firstOccurKeys_nodup : ∀ (l : List String), (firstOccurKeys l).Nodup := by
  intro l
  induction l with
  | nil => simp [firstOccurKeys]
  | cons x xs ih =>
      simp only [firstOccurKeys, List.nodup_cons]
      constructor
      · intro hmem
        exact absurd (List.of_mem_filter hmem) (by simp)
      · exact List.Nodup.filter _ ih

theorem finalValue_concat {V : Type} (k : String) (l : List (String × V))
    (r : String × V) :
    finalValue k (l ++ [r]) =
      if r.1 = k then some r.2 else finalValue k l := by
  induction l with
  | nil =>
      simp only [List.nil_append, finalValue]
      by_cases h : r.1 = k
      · simp [h]
      · simp [h]
  | cons p rest ih =>
      simp only [List.cons_append, finalValue, List.append_eq]
      rw [ih]
      by_cases h : r.1 = k
      · rw [if_pos h, if_pos h]
        rfl
      · rw [if_neg h, if_neg h]

theorem registerAll_keys {V : Type} :
    ∀ (regs : List (String × V)),
      (registerAll regs).map Prod.fst = firstOccurKeys (regs.map Prod.fst) := by
  intro regs
  induction regs using List.reverseRecOn with
  | nil => rfl
  | append_singleton l r ih =>
      rw [registerAll_concat, dictInsert_keys, ih, List.map_append,
          List.map_singleton, firstOccurKeys_concat]
      by_cases h : r.1 ∈ l.map Prod.fst
      · rw [if_pos ((mem_firstOccurKeys r.1 (l.map Prod.fst)).mpr h), if_pos h]
      · rw [if_neg (fun hh => h ((mem_firstOccurKeys r.1 (l.map Prod.fst)).mp hh)),
            if_neg h]

theorem registerAll_lookup {V : Type} :
    ∀ (regs : List (String × V)) (k : String),
      List.lookup k (registerAll regs) = finalValue k regs := by
  intro regs
  induction regs using List.reverseRecOn with
  | nil => intro k; rfl
  | append_singleton l r ih =>
      intro k
      rw [registerAll_concat, dictInsert_lookup, finalValue_concat, ih k]
      by_cases h : k = r.1
      · rw [if_pos h, if_pos h.symm]
      · rw [if_neg h, if_neg (fun hh => h hh.symm)]

/-- C5 counterexample: re-registering a name does not move it to the end of
the iteration order; a Python dict keeps the key at its original position,
so the claimed order — equivalent to re-inserting at the end — is wrong. -/
theorem reregistration_position_counterexample :
    registerAll [("a", (1 : Nat)), ("b", 2), ("a", 3)] = [("a", 3), ("b", 2)]
    ∧ registerAll [("a", (1 : Nat)), ("b", 2), ("a", 3)] ≠ [("b", 2), ("a", 3)] := by
  exact ⟨rfl, by decide⟩

/-- C5 amended: for every registration sequence, the final store has
exactly one entry per registered name (its key list is duplicate-free and
contains exactly the registered names), the value under each name is the
one supplied by the last registration of that name, and the iteration
order is first-registration order: a re-registered name keeps its original
position rather than moving to the end. -/
theorem registration_last_wins_keeps_position :
    ∀ {V : Type} (regs : List (String × V)),
      (registerAll regs).map Prod.fst = firstOccurKeys (regs.map Prod.fst)
      ∧ ((registerAll regs).map Prod.fst).Nodup
      ∧ (∀ k, List.lookup k (registerAll regs) = finalValue k regs)
      ∧ (∀ k, k ∈ (registerAll regs).map Prod.fst ↔ k ∈ regs.map Prod.fst) := by
  intro V regs
  refine ⟨registerAll_keys regs, ?_, registerAll_lookup regs, ?_⟩
  · rw [registerAll_keys regs]
    exact firstOccurKeys_nodup _
  · intro k
    rw [registerAll_keys regs]
    exact mem_firstOccurKeys k _

/-! ### DataFrame canonicalization (C6) -/

theorem dataframe_index_label_lookup (df : DataFrame) :
    List.lookup "index_label" (dataframe_repr_entries df true) =
      (match df.indexNames.filterMap id with
       | [n] => some (PyVal.str n)
       | _ => Option.none) := by
  cases hn : df.indexNames.filterMap id with
  | nil =>
      simp only [dataframe_repr_entries, hn]
      rfl
  | cons n rest =>
      cases rest with
      | nil =>
          simp only [dataframe_repr_entries, hn]
          rfl
      | cons m rest' =>
          simp only [dataframe_repr_entries, hn]
          rfl

/-- C6: for every hierarchically indexed table, the canonical `index` is
the ordered sequence of index labels, where a multi-level (tuple) label is
recorded as the string form of the ordered tuple of its level values —
`("foo", "one")` becomes the 14-character string `('foo', 'one')` — and
`index_label` is present exactly when the index has exactly one named
(non-`None`) level, carrying that level's name; in particular the
source's MultiIndex frame gets four tuple-string labels and no
`index_label`, while the singly-indexed frame gets `index_label = "id"`. -/
theorem multiindex_canonicalization :
    ∀ (df : DataFrame),
      List.lookup "index" (dataframe_repr_entries df true) =
        some (.list (df.index.map indexEntryRepr))
      ∧ List.lookup "index_label" (dataframe_repr_entries df true) =
          (match df.indexNames.filterMap id with
           | [n] => some (PyVal.str n)
           | _ => Option.none)
      ∧ (∀ xs, indexEntryRepr (.tuple xs) = .str (pyRepr (.tuple xs)))
      ∧ (pyRepr (.tuple [.str "foo", .str "one"])).data =
          ['(', squote, 'f', 'o', 'o', squote, ',', ' ',
           squote, 'o', 'n', 'e', squote, ')']
      ∧ List.lookup "index" (dataframe_repr_entries multi_df true) =
          some (.list
            [.str (pyRepr (.tuple [.str "foo", .str "one"])),
             .str (pyRepr (.tuple [.str "foo", .str "two"])),
             .str (pyRepr (.tuple [.str "bar", .str "one"])),
             .str (pyRepr (.tuple [.str "bar", .str "two"]))])
      ∧ List.lookup "index_label" (dataframe_repr_entries multi_df true) =
          Option.none
      ∧ List.lookup "index_label" (dataframe_repr_entries simple_df true) =
          some (.str "id") := by
  intro df
  refine ⟨rfl, dataframe_index_label_lookup df, fun xs => rfl, by decide,
          rfl, ?_, ?_⟩
  · rw [dataframe_index_label_lookup multi_df]
    rfl
  · rw [dataframe_index_label_lookup simple_df]
    rfl

/-! ### Fixture serialization (C8) -/

/-- C8 counterexample: the ANSI escape character U+001B appearing in case
data (case `ansi_plain`) is not preserved literally by the writer;
`json.dump` emits the six-character escape sequence `\u001b` instead, and
the serialized string contains no literal ESC character at all. -/
theorem ansi_escape_not_literal_counterexample :
    jsonString (String.singleton (Char.ofNat 27) ++ "[31mRed") =
      "\"\\u001b[31mRed\""
    ∧ ((jsonString (String.singleton (Char.ofNat 27) ++ "[31mRed")).toList.all
        fun c => c.toNat ≠ 27) = true
    ∧ (((String.singleton (Char.ofNat 27) ++ "[31mRed")).toList.any
        fun c => c.toNat = 27) = true := by
  refine ⟨?_, by decide, by decide⟩
  decide

/-- C8 amended: the writer emits every character other than the two JSON
metacharacters and the control range literally — in particular all
non-Latin script (code points ≥ U+0020, e.g. 寿司) appears unescaped in
the file — while control characters (ANSI escapes, newlines, tabs) are
escaped per JSON string syntax; object entries are serialized
sequentially in entry order, so case order is preserved, with two-space
indentation steps. -/
theorem nonascii_preserved_controls_escaped :
    (∀ c : Char, 32 ≤ c.toNat → c ≠ Char.ofNat 34 → c ≠ Char.ofNat 92 →
        jsonEscapeChar c = String.singleton c)
    ∧ jsonString "寿司" = "\"寿司\""
    ∧ jsonEscapeChar (Char.ofNat 27) = "\\u001b"
    ∧ (∀ (k : String) (v : PyVal) (es : List (String × PyVal)) (d : Nat),
        jsonEntries ((k, v) :: es) d =
          (indentStr d ++ jsonString k ++ ": " ++ jsonValue v d) ::
            jsonEntries es d)
    ∧ indentStr 1 = "  " := by
  refine ⟨?_, by decide, by decide, fun k v es d => rfl, by decide⟩
  intro c h1 h2 h3
  have e92 : c ≠ Char.ofNat 92 := h3
  have e34 : c ≠ Char.ofNat 34 := h2
  have elow : ∀ n : Nat, (Char.ofNat n).toNat = n → n < 32 →
      c ≠ Char.ofNat n := by
    intro n hn hlt he
    rw [he, hn] at h1
    omega
  rw [jsonEscapeChar]
  rw [if_neg e92, if_neg e34, if_neg (elow 10 (by decide) (by omega)),
      if_neg (elow 9 (by decide) (by omega)),
      if_neg (elow 13 (by decide) (by omega)),
      if_neg (elow 8 (by decide) (by omega)),
      if_neg (elow 12 (by decide) (by omega)),
      if_neg (by omega)]

/-- Witness for the escaping theorem at the concrete character 寿
(U+5BFF), a non-Latin character from case `wide_grid`: it satisfies the
hypotheses and is emitted literally. -/
theorem nonascii_preserved_witness :
    32 ≤ (Char.ofNat 0x5BFF).toNat
    ∧ Char.ofNat 0x5BFF ≠ Char.ofNat 34
    ∧ Char.ofNat 0x5BFF ≠ Char.ofNat 92
    ∧ jsonEscapeChar (Char.ofNat 0x5BFF) =
        String.singleton (Char.ofNat 0x5BFF) :=
  ⟨by decide, by decide, by decide,
   nonascii_preserved_controls_escaped.1 (Char.ofNat 0x5BFF)
     (by decide) (by decide) (by decide)⟩

/-! ### Frame property of the loop (C10) -/

theorem heap_alloc_lookup_lt (h : Heap) (d : List (String × PyVal)) (a : Nat)
    (ha : a < h.next) : (h.alloc d).2.lookup a = h.lookup a := by
  unfold Heap.alloc Heap.lookup
  rw [lookup_append_pairs]
  have hnone : List.lookup a [(h.next, d)] = Option.none := by
    rw [lookup_cons_pairs, if_neg (by omega : ¬a = (h.next, d).1)]
    rfl
  rw [hnone]
  cases List.lookup a h.objs <;> rfl

theorem heap_alloc_WF (h : Heap) (d : List (String × PyVal))
    (hwf : h.WF = true) : (h.alloc d).2.WF = true := by
  unfold Heap.alloc Heap.WF at *
  simp only [List.all_append, Bool.and_eq_true, List.all_eq_true,
    decide_eq_true_eq] at *
  constructor
  · intro p hp
    have := hwf p hp
    omega
  · intro p hp
    simp only [List.mem_singleton] at hp
    subst hp
    omega

theorem heap_WF_lookup_ge (h : Heap) (a : Nat) (hwf : h.WF = true)
    (ha : h.next ≤ a) : h.lookup a = Option.none := by
  unfold Heap.WF at hwf
  unfold Heap.lookup
  apply lookup_eq_none_of_not_mem_keys
  intro hmem
  rcases List.mem_map.mp hmem with ⟨p, hp, hpk⟩
  rw [List.all_eq_true] at hwf
  have := hwf p hp
  simp only [decide_eq_true_eq] at this
  omega

theorem processCaseH_ok (oracle : Oracle) (npP : Bool) (h : Heap)
    (name : String) (c : HCase) (s : HSnapshot) (h' : Heap)
    (hok : processCaseH oracle npP h name c = .ok (s, h')) :
    s.kwargsAddr = h.next ∧ h'.next = h.next + 1
    ∧ (∀ a, a < h.next → h'.lookup a = h.lookup a)
    ∧ (h.WF = true → h'.WF = true) := by
  unfold processCaseH at hok
  cases hraw : c.python_data <|> (c.data.map RawData.val) with
  | none => rw [hraw] at hok; cases hok
  | some pdata =>
      rw [hraw] at hok
      simp only [to_json_kwargsH] at hok
      cases hk : to_json_kwargs npP ((h.lookup c.kwargsAddr).getD []) with
      | error e => rw [hk] at hok; cases hok
      | ok kw =>
          rw [hk] at hok
          simp only [Except.ok.injEq, Prod.mk.injEq] at hok
          obtain ⟨hs, hh⟩ := hok
          subst hh
          refine ⟨?_, rfl, fun a ha => heap_alloc_lookup_lt h kw a ha,
                  fun hwf => heap_alloc_WF h kw hwf⟩
          rw [← hs]
          rfl

theorem assembleCasesH_frame (oracle : Oracle) (npP : Bool) :
    ∀ (cat : List (String × HCase)) (h : Heap)
      (snaps : List (String × HSnapshot)) (hF : Heap),
      h.WF = true →
      assembleCasesH oracle npP h cat = .ok (snaps, hF) →
      (∀ a, a < h.next → hF.lookup a = h.lookup a)
      ∧ h.next ≤ hF.next
      ∧ hF.WF = true
      ∧ (∀ s ∈ snaps, h.next ≤ s.2.kwargsAddr) := by
  intro cat
  induction cat with
  | nil =>
      intro h snaps hF hwf hok
      simp only [assembleCasesH, Except.ok.injEq, Prod.mk.injEq] at hok
      obtain ⟨hs, hh⟩ := hok
      subst hh
      exact ⟨fun a _ => rfl, le_refl _, hwf, by simp [← hs]⟩
  | cons nc rest ih =>
      intro h snaps hF hwf hok
      simp only [assembleCasesH] at hok
      cases hp : processCaseH oracle npP h nc.1 nc.2 with
      | error e => rw [hp] at hok; cases hok
      | ok sh =>
          rcases sh with ⟨s, h1⟩
          rw [hp] at hok
          have hok2 : (match assembleCasesH oracle npP h1 rest with
              | Except.error e => (Except.error e : Except GenError
                  (List (String × HSnapshot) × Heap))
              | Except.ok (out, hz) => Except.ok ((nc.1, s) :: out, hz)) =
              Except.ok (snaps, hF) := hok
          cases hr : assembleCasesH oracle npP h1 rest with
          | error e => rw [hr] at hok2; cases hok2
          | ok oh =>
              rcases oh with ⟨out, h2⟩
              rw [hr] at hok2
              simp only [Except.ok.injEq, Prod.mk.injEq] at hok2
              obtain ⟨hs, hh⟩ := hok2
              subst hh
              obtain ⟨haddr, hnext1, hlook1, hwfp⟩ :=
                processCaseH_ok oracle npP h nc.1 nc.2 s h1 hp
              obtain ⟨ihl, ihn, ihwf, ihsn⟩ := ih h1 out h2 (hwfp hwf) hr
              refine ⟨?_, by omega, ihwf, ?_⟩
              · intro a ha
                rw [ihl a (by omega), hlook1 a ha]
              · intro x hx
                rw [← hs] at hx
                rcases List.mem_cons.mp hx with hx | hx
                · subst hx
                  show h.next ≤ s.kwargsAddr
                  omega
                · have := ihsn x hx
                  omega

/-- C10: assembling the snapshot store never mutates the catalog: every
dict object present before the run — in particular every registered
case's options mapping — dereferences to the same contents afterwards,
and each produced snapshot's kwargs dict is a freshly allocated object,
distinct from every pre-existing dict and hence from every registered
options mapping.  (Raw data and canonical overrides are only read by the
loop; they are immutable fields of the catalog entries in this model.) -/
theorem assembly_does_not_mutate_catalog :
    ∀ (oracle : Oracle) (npP : Bool) (cat : List (String × HCase)) (h : Heap)
      (snaps : List (String × HSnapshot)) (hF : Heap),
      h.WF = true →
      assembleCasesH oracle npP h cat = .ok (snaps, hF) →
      (∀ a, a < h.next → hF.lookup a = h.lookup a)
      ∧ (∀ s ∈ snaps, h.lookup s.2.kwargsAddr = Option.none)
      ∧ (∀ s ∈ snaps, ∀ nc ∈ cat, nc.2.kwargsAddr < h.next →
          s.2.kwargsAddr ≠ nc.2.kwargsAddr) := by
  intro oracle npP cat h snaps hF hwf hok
  obtain ⟨hlook, _, _, hsn⟩ := assembleCasesH_frame oracle npP cat h snaps hF hwf hok
  refine ⟨hlook, ?_, ?_⟩
  · intro s hs
    exact heap_WF_lookup_ge h s.2.kwargsAddr hwf (hsn s hs)
  · intro s hs nc _ hnc
    have := hsn s hs
    omega

/-- The one-object heap and one-case catalog used to instantiate the frame
theorem at a closed input. -/
def hw0 : Heap := ⟨[(0, [("tablefmt", PyVal.str "plain")])], 1⟩

def hcase0 : HCase := { data := some (.list [.list [.int 1]]), kwargsAddr := 0 }

def hsnap0 : HSnapshot :=
  { data := .list [.list [.int 1]], kwargsAddr := 1, output := "" }

def hwF : Heap :=
  ⟨[(0, [("tablefmt", PyVal.str "plain")]),
    (1, [("tablefmt", PyVal.str "plain")])], 2⟩

theorem assembly_does_not_mutate_catalog_witness :
    hw0.WF = true
    ∧ assembleCasesH oracle0 true hw0 [("c", hcase0)] = .ok ([("c", hsnap0)], hwF)
    ∧ hwF.lookup 0 = hw0.lookup 0
    ∧ hw0.lookup hsnap0.kwargsAddr = Option.none := by
  have main := assembly_does_not_mutate_catalog oracle0 true [("c", hcase0)]
    hw0 [("c", hsnap0)] hwF rfl rfl
  refine ⟨rfl, rfl, ?_, ?_⟩
  · exact main.1 0 (by decide)
  · exact main.2.1 ("c", hsnap0) (List.mem_singleton.mpr rfl)

end GenerateSnapshots
